import Mathlib

/-!
Verification of the HPPS scoring and job-matching core of the
gdcoe-project-backend repository.

The scoring engine (`function.py`) and the matching/ranking engine
(`job_matching_layer.py`) are shallowly embedded below.  Python floats are
modelled as rationals (`ℚ`); all arithmetic in the source is exact decimal
arithmetic on small constants, so the rational model matches the float
semantics on every input appearing in the theorems.  Arbitrary Python input
values (None, numbers, NaN/inf, strings, other objects) are modelled by the
`Value` type.  Python's hidden mutation (the shared `warnings` out-parameter
list, and `rank_students`' in-place field writes) is made explicit by state
passing.  Warning message texts keep the fixed part of the source f-strings;
the interpolated numeric values are omitted, which no theorem inspects.
-/

namespace Gdcoe

/-- A Python value as it can arrive in a signal set: `None`, a finite number,
a NaN/infinity float, a string (carrying its float-parse result: `some q` if
`float(s)` yields a finite value, `none` if parsing fails or yields
NaN/infinity), or any other object. -/
inductive Value where
  | vnone : Value
  | vnum : ℚ → Value
  | vnan : Value
  | vstr : Option ℚ → Value
  | vother : Value
deriving DecidableEq

/-- `safe_float` from `function.py` (also duplicated verbatim in
`job_matching_layer.py`): convert to float, handling None, strings, NaN, inf;
otherwise return the default. -/
def safe_float (value : Value) (default : Option ℚ) : Option ℚ :=
  match value with
  | .vnone => default
  | .vnum q => some q
  | .vnan => default
  | .vstr (some q) => some q
  | .vstr none => default
  | .vother => default

/-- Python `int()` truncation toward zero on a finite float. -/
def pyTrunc (q : ℚ) : ℤ :=
  if 0 ≤ q then ⌊q⌋ else ⌈q⌉

/-- `safe_int` from the source, at its only used default (`default=None`):
`safe_float` then `int(...)`. -/
def safe_int (value : Value) : Option ℤ :=
  (safe_float value none).map pyTrunc

/-- Clamp to `[0, 1]`, the `max(0.0, min(1.0, x))` idiom of the source. -/
def clamp01 (x : ℚ) : ℚ := max 0 (min 1 x)

/-- `validate_ratio`: normalize ratio to `[0, 1]`, `0.5` if invalid/missing;
returns the value together with the updated warnings list. -/
def validate_ratio (value : Value) (name : String) (ws : List String) :
    ℚ × List String :=
  match safe_float value none with
  | none => (0.5, ws ++ [name ++ " missing, using neutral fallback 0.5"])
  | some q =>
    if q < 0 then (0, ws ++ [name ++ " negative, clamping to 0"])
    else if q > 1 then (1, ws ++ [name ++ " > 1.0, clamping to 1.0"])
    else (q, ws)

/-- `validate_count`: integer count, `0` if invalid/missing, negatives
clamped to `0`. -/
def validate_count (value : Value) (name : String) (ws : List String) :
    ℤ × List String :=
  match safe_int value with
  | none => (0, ws ++ [name ++ " missing, using fallback 0"])
  | some n =>
    if n < 0 then (0, ws ++ [name ++ " negative, clamping to 0"])
    else (n, ws)

/-- `validate_rating` from `function.py` (the variant the scoring pipeline
uses): `None` if invalid/missing (no warning), a negative value is treated
as missing (`None`) with a warning. -/
def validate_rating (value : Value) (name : String) (ws : List String) :
    Option ℚ × List String :=
  match safe_float value none with
  | none => (none, ws)
  | some q =>
    if q < 0 then (none, ws ++ [name ++ " negative, treating as missing"])
    else (some q, ws)

/-- `validate_ai_score`: AI score on a 0-100 or 0-1 scale; `50.0` if
invalid/missing, negatives clamped to `0`. -/
def validate_ai_score (value : Value) (name : String) (ws : List String) :
    ℚ × List String :=
  match safe_float value none with
  | none => (50, ws ++ [name ++ " missing, using neutral fallback 50.0"])
  | some q =>
    if q < 0 then (0, ws ++ [name ++ " negative, clamping to 0"])
    else (q, ws)

/-- `cf_percentile_safe`: Codeforces rating to percentile (0-100 scale)
through the fixed bucket table; `50` for `None`. -/
def cf_percentile_safe (codeforces_rating : Option ℚ) : ℚ :=
  match codeforces_rating with
  | none => 50
  | some rating =>
    if rating ≥ 3000 then 99.93
    else if rating ≥ 2400 then 99.2
    else if rating ≥ 2100 then 97
    else if rating ≥ 1900 then 94
    else if rating ≥ 1600 then 85
    else if rating ≥ 1400 then 73
    else if rating ≥ 1200 then 55
    else if rating ≥ 1000 then 33
    else if rating ≥ 800 then 11
    else 5

/-- `lc_percentile_safe`: LeetCode rating to percentile (0-100 scale)
through the fixed bucket table; `50` for `None`. -/
def lc_percentile_safe (leetcode_rating : Option ℚ) : ℚ :=
  match leetcode_rating with
  | none => 50
  | some rating =>
    if rating ≥ 2500 then 97.63
    else if rating ≥ 2200 then 91.19
    else if rating ≥ 2000 then 79.98
    else if rating ≥ 1850 then 63.77
    else if rating ≥ 1750 then 49.98
    else if rating ≥ 1600 then 27.35
    else if rating ≥ 1500 then 15.09
    else if rating ≥ 1400 then 6.66
    else if rating ≥ 1200 then 0.83
    else if rating ≥ 1000 then 0.4
    else 0.1

/-- `get_best_rating_percentile`: best available rating percentile with
fallback logic CF → LC → 50. -/
def get_best_rating_percentile (CF_rating LC_rating : Value)
    (ws : List String) : ℚ × List String :=
  let r1 := validate_rating CF_rating "CF_rating" ws
  let r2 := validate_rating LC_rating "LC_rating" r1.2
  match r1.1, r2.1 with
  | some cf, some lc =>
    (if cf ≥ 0.75 * lc then cf_percentile_safe (some cf)
     else lc_percentile_safe (some lc), r2.2)
  | some cf, none => (cf_percentile_safe (some cf), r2.2)
  | none, some lc => (lc_percentile_safe (some lc), r2.2)
  | none, none =>
    (50, r2.2 ++
      ["Both CF_rating and LC_rating missing, using neutral baseline 50 percentile"])

/-- `norm`: normalize to the 0-1 scale with safe bounds (`0` when the bounds
coincide). -/
def norm (value min_val max_val : ℚ) : ℚ :=
  if max_val = min_val then 0
  else clamp01 ((value - min_val) / (max_val - min_val))

/-- `norm_percentile`: 0-100 scale to 0-1. -/
def norm_percentile (percentile_value : ℚ) : ℚ :=
  norm percentile_value 0 100

/-- `norm_ratio`: pass through with clamping to `[0,1]`. -/
def norm_ratio (ratio_value : ℚ) : ℚ := clamp01 ratio_value

/-- `norm_count`: normalize a count against a maximum. -/
def norm_count (count_value max_count : ℚ) : ℚ :=
  norm count_value 0 max_count

/-- `normalize_ai_score` at its default threshold `10.0`: values above the
threshold are treated as 0-100 scale, the rest as 0-1 scale. -/
def normalize_ai_score (value : ℚ) : ℚ :=
  if value > 10 then norm_percentile value else norm_ratio value

/-- `calculate_AD` — Algorithmic Depth:
`0.6·norm(rating) + 0.25·norm(CF_hard) + 0.15·norm(LC_medium_hard)`,
clamped to `[0,1]`.  (The source's `except` fallback to `0.5` is
unreachable: every callee is total.) -/
def calculate_AD (CF_rating LC_rating CF_hard_problem_ratio
    LC_medium_hard_ratio : Value) (ws : List String) : ℚ × List String :=
  let rb := get_best_rating_percentile CF_rating LC_rating ws
  let norm_rating := norm_percentile rb.1
  let rc := validate_ratio CF_hard_problem_ratio "CF_hard_problem_ratio" rb.2
  let norm_cf_hard := norm_ratio rc.1
  let rl := validate_ratio LC_medium_hard_ratio "LC_medium_hard_ratio" rc.2
  let norm_lc_medium_hard := norm_ratio rl.1
  (clamp01 (0.6 * norm_rating + 0.25 * norm_cf_hard +
    0.15 * norm_lc_medium_hard), rl.2)

/-- `calculate_EAP` — Execution & Application Power:
`0.4·norm(projects) + 0.25·norm(complexity) + 0.2·norm(stack) +
0.15·norm(quality)`, clamped to `[0,1]`. -/
def calculate_EAP (real_projects_count project_complexity_score
    stack_diversity code_quality_indicators : Value) (ws : List String) :
    ℚ × List String :=
  let p := validate_count real_projects_count "real_projects_count" ws
  let norm_projects := norm_count (p.1 : ℚ) 50
  let c := validate_ai_score project_complexity_score
    "project_complexity_score" p.2
  let s := validate_ai_score stack_diversity "stack_diversity" c.2
  let q := validate_ai_score code_quality_indicators
    "code_quality_indicators" s.2
  (clamp01 (0.4 * norm_projects + 0.25 * normalize_ai_score c.1 +
    0.2 * normalize_ai_score s.1 + 0.15 * normalize_ai_score q.1), q.2)

/-- `calculate_CCL` — Consistency & Career Longevity:
`0.4·norm(months) + 0.25·norm(frequency) + 0.2·norm(stability) +
0.15·norm(streak)`, clamped to `[0,1]`, with the dual ratio/count rule for
`activity_frequency` and the dual ratio/percentile rule for
`rating_stability`. -/
def calculate_CCL (active_months activity_frequency rating_stability
    longest_streak : Value) (ws : List String) : ℚ × List String :=
  let m := validate_count active_months "active_months" ws
  let norm_months := norm_count (m.1 : ℚ) 60
  let rf : ℚ × List String :=
    match safe_float activity_frequency none with
    | none =>
      (0.5, m.2 ++ ["activity_frequency missing, using neutral fallback 0.5"])
    | some freq =>
      (if freq ≤ 1 then norm_ratio freq else norm_count freq 30, m.2)
  let rs : ℚ × List String :=
    match safe_float rating_stability none with
    | none =>
      (0.5, rf.2 ++ ["rating_stability missing, using neutral fallback 0.5"])
    | some stability =>
      (if stability ≤ 1 then norm_ratio stability
       else norm_percentile stability, rf.2)
  let st := validate_count longest_streak "longest_streak" rs.2
  let norm_streak := norm_count (st.1 : ℚ) 365
  (clamp01 (0.4 * norm_months + 0.25 * rf.1 + 0.2 * rs.1 +
    0.15 * norm_streak), st.2)

/-- `calculate_LA` — Leverage & Adaptability:
`0.35·norm(new_tech) + 0.25·norm(reusable) + 0.2·norm(oss) +
0.2·norm(cross)`, clamped to `[0,1]`. -/
def calculate_LA (new_tech_usage reusable_components oss_engagement
    cross_domain_work : Value) (ws : List String) : ℚ × List String :=
  let nt := validate_ai_score new_tech_usage "new_tech_usage" ws
  let re := validate_ai_score reusable_components "reusable_components" nt.2
  let os := validate_ai_score oss_engagement "oss_engagement" re.2
  let cr := validate_ai_score cross_domain_work "cross_domain_work" os.2
  (clamp01 (0.35 * normalize_ai_score nt.1 + 0.25 * normalize_ai_score re.1 +
    0.2 * normalize_ai_score os.1 + 0.2 * normalize_ai_score cr.1), cr.2)

/-- `apply_min_dominance_penalty` with the source's default penalty range
(`penalty_min=0.3`, `penalty_max=0.5`): if `min(AD, EAP, CCL) < 0.4`, reduce
the final HPPS by 30-50%, recording a warning. -/
def apply_min_dominance_penalty (AD EAP CCL penalty_min penalty_max : ℚ)
    (ws : List String) : ℚ × List String :=
  let min_score := min AD (min EAP CCL)
  if min_score < 0.4 then
    let penalty := penalty_min + (penalty_max - penalty_min) *
      (0.4 - min_score) / 0.4
    (1 - penalty, ws ++ ["Minimum dominance rule applied"])
  else (1, ws)

/-- The sixteen named input signals of `calculate_HPPS`, each an arbitrary
Python value. -/
structure HPPSInputs where
  CF_rating : Value
  LC_rating : Value
  CF_hard_problem_ratio : Value
  LC_medium_hard_ratio : Value
  real_projects_count : Value
  active_months : Value
  activity_frequency : Value
  rating_stability : Value
  longest_streak : Value
  project_complexity_score : Value
  code_quality_indicators : Value
  stack_diversity : Value
  reusable_components : Value
  cross_domain_work : Value
  oss_engagement : Value
  new_tech_usage : Value
deriving DecidableEq

/-- The result record of `calculate_HPPS`. -/
structure CompositeScore where
  HPPS : ℚ
  HPPS_percentage : ℚ
  AD : ℚ
  EAP : ℚ
  CCL : ℚ
  LA : ℚ
  penalty_applied : Bool
  penalty_multiplier : ℚ
  base_HPPS : ℚ
  warnings : List String
  errors : List String
deriving DecidableEq

/-- The all-zero default result built in the `except` branch of
`calculate_HPPS`: all scores `0.0`, `penalty_multiplier 1.0`, the warnings
accumulated so far, and a critical-error entry in `errors`. -/
def hppsErrorResult (msg : String) (ws : List String) : CompositeScore :=
  { HPPS := 0
    HPPS_percentage := 0
    AD := 0
    EAP := 0
    CCL := 0
    LA := 0
    penalty_applied := false
    penalty_multiplier := 1
    base_HPPS := 0
    warnings := ws
    errors := ["Critical error in calculate_HPPS: " ++ msg] }

/-- `calculate_HPPS`: the composite aggregator.  Every callee of the `try`
body is total (each sub-calculator and the penalty catch their own faults
internally), so the happy path below is the whole function; the source's
`except` branch (embedded as `hppsErrorResult`) is unreachable and `errors`
stays empty. -/
def calculate_HPPS (inp : HPPSInputs) : CompositeScore :=
  let rAD := calculate_AD inp.CF_rating inp.LC_rating
    inp.CF_hard_problem_ratio inp.LC_medium_hard_ratio []
  let rEAP := calculate_EAP inp.real_projects_count
    inp.project_complexity_score inp.stack_diversity
    inp.code_quality_indicators rAD.2
  let rCCL := calculate_CCL inp.active_months inp.activity_frequency
    inp.rating_stability inp.longest_streak rEAP.2
  let rLA := calculate_LA inp.new_tech_usage inp.reusable_components
    inp.oss_engagement inp.cross_domain_work rCCL.2
  let rPen := apply_min_dominance_penalty rAD.1 rEAP.1 rCCL.1 0.3 0.5 rLA.2
  let base_HPPS := 0.30 * rAD.1 + 0.30 * rEAP.1 + 0.25 * rCCL.1 + 0.15 * rLA.1
  let final_HPPS := rPen.1 * base_HPPS
  { HPPS := clamp01 final_HPPS
    HPPS_percentage := max 0 (min 100 (final_HPPS * 100))
    AD := clamp01 rAD.1
    EAP := clamp01 rEAP.1
    CCL := clamp01 rCCL.1
    LA := clamp01 rLA.1
    penalty_applied := decide (rPen.1 < 1)
    penalty_multiplier := rPen.1
    base_HPPS := clamp01 base_HPPS
    warnings := rPen.2
    errors := [] }

/-! ### Job matching layer (`job_matching_layer.py`) -/

/-- Python ASCII whitespace, the character class `\s` on the inputs at hand. -/
def pyIsSpace (c : Char) : Bool :=
  c = ' ' || c = '\t' || c = '\n' || c = '\r' || c = '\x0b' || c = '\x0c'

/-- `\w`: word characters (ASCII letters, digits, underscore). -/
def isWordChar (c : Char) : Bool := c.isAlphanum || c = '_'

/-- Drop characters satisfying `p` from both ends (Python `str.strip`). -/
def stripWhile (p : Char → Bool) (l : List Char) : List Char :=
  ((l.dropWhile p).reverse.dropWhile p).reverse

/-- Replace each maximal run of whitespace/hyphen by a single underscore
(the `re.sub(r'[\s-]+', '_', ...)` step). -/
def collapseSeps (l : List Char) : List Char :=
  (l.foldl
    (fun (acc : List Char × Bool) c =>
      if pyIsSpace c || c = '-' then
        if acc.2 then acc else ('_' :: acc.1, true)
      else (c :: acc.1, false))
    ([], false)).1.reverse

/-- `normalize_keyword`: trim, lowercase, strip characters outside
`[\w\s-]`, collapse whitespace/hyphen runs to `_`, strip outer underscores;
`none` when the result (or the input) is empty. -/
def normalize_keyword (keyword : String) : Option String :=
  if keyword = "" then none
  else
    let s1 := (stripWhile pyIsSpace keyword.data).map Char.toLower
    if s1 = [] then none
    else
      let s2 := s1.filter (fun c => isWordChar c || pyIsSpace c || c = '-')
      let s3 := stripWhile (· = '_') (collapseSeps s2)
      if s3 = [] then none else some (String.mk s3)

/-- A student-profile field as `calculate_keyword_match` can receive it:
missing (or falsy), a single string, a list (items modelled by their `str()`
image, falsy items by `""`), or some other object. -/
inductive PyField where
  | absent : PyField
  | pstr : String → PyField
  | plist : List String → PyField
  | pother : PyField
deriving DecidableEq

/-- `normalize_student_field`: normalize a skills/tags/languages field to a
list of normalized strings. -/
def normalize_student_field (field : PyField) : List String :=
  match field with
  | .absent => []
  | .pstr s =>
    if s = "" then []
    else
      match normalize_keyword s with
      | some k => [k]
      | none => []
  | .plist items =>
    if items = [] then []
    else items.filterMap fun item =>
      if item = "" then none else normalize_keyword item
  | .pother => []

/-- The static keyword → category expansion table `KEYWORD_MAP`. -/
def KEYWORD_MAP : List (String × List String) :=
  [ ("rest_api", ["backend"]),
    ("api", ["backend"]),
    ("flask", ["backend", "python"]),
    ("django", ["backend", "python"]),
    ("fastapi", ["backend", "python"]),
    ("express", ["backend", "javascript"]),
    ("node", ["backend", "javascript"]),
    ("spring", ["backend", "java"]),
    ("rails", ["backend", "ruby"]),
    ("laravel", ["backend", "php"]),
    ("sql", ["database"]),
    ("mysql", ["database"]),
    ("postgresql", ["database"]),
    ("postgres", ["database"]),
    ("mongodb", ["database"]),
    ("redis", ["database"]),
    ("react", ["frontend", "javascript"]),
    ("vue", ["frontend", "javascript"]),
    ("angular", ["frontend", "javascript"]),
    ("typescript", ["javascript"]),
    ("javascript", ["javascript"]),
    ("python", ["python"]),
    ("java", ["java"]),
    ("cpp", ["c++"]),
    ("c++", ["c++"]),
    ("c", ["c"]),
    ("go", ["go"]),
    ("rust", ["rust"]),
    ("html", ["frontend"]),
    ("css", ["frontend"]),
    ("docker", ["devops"]),
    ("kubernetes", ["devops"]),
    ("k8s", ["devops"]),
    ("aws", ["cloud"]),
    ("azure", ["cloud"]),
    ("gcp", ["cloud"]),
    ("tensorflow", ["machine_learning"]),
    ("pytorch", ["machine_learning"]),
    ("sklearn", ["machine_learning"]),
    ("pandas", ["data_engineering"]),
    ("spark", ["data_engineering"]),
    ("etl", ["data_engineering"]) ]

/-- `_check_keyword_match`: a keyword matches if it is directly in the
student's keyword set, or if its `KEYWORD_MAP` expansion intersects it. -/
def _check_keyword_match (keyword : String)
    (all_student_keywords : List String) : Bool :=
  if keyword ∈ all_student_keywords then true
  else
    match KEYWORD_MAP.lookup keyword with
    | some mapped_fields =>
      mapped_fields.any fun field => field ∈ all_student_keywords
    | none => false

/-- A candidate profile for matching: `none` models a falsy or non-dict
student (Python's `not student or not isinstance(student, dict)` guard). -/
structure Student where
  student_id : Value
  skills : PyField
  tags : PyField
  languages : PyField
deriving DecidableEq

/-- The result record of `calculate_keyword_match`. -/
structure MatchResult where
  matched_keywords : List String
  unmatched_keywords : List String
  total_keywords : ℕ
  match_pct : ℚ
  mandatory_matched : Bool
  mandatory_matched_keywords : List String
  mandatory_unmatched_keywords : List String
  mandatory_count : ℕ
  mandatory_matched_count : ℕ
deriving DecidableEq

/-- `calculate_keyword_match`: keyword match percentage for a student.
Returns `none` for a falsy/non-dict student or a falsy/non-list keyword
list (the empty list is falsy); a falsy `mandatory_keywords` is replaced by
`[]`, which the `List` model already represents. -/
def calculate_keyword_match (student : Option Student)
    (keywords : List String) (mandatory_keywords : List String) :
    Option MatchResult :=
  match student with
  | none => none
  | some st =>
    if keywords = [] then none
    else
      let skills := normalize_student_field st.skills
      let tags := normalize_student_field st.tags
      let languages := normalize_student_field st.languages
      let all_student_keywords := skills ++ tags ++ languages
      let parts := keywords.partition
        fun kw => _check_keyword_match kw all_student_keywords
      let mparts := (mandatory_keywords.filterMap normalize_keyword).partition
        fun k => _check_keyword_match k all_student_keywords
      let total_keywords := keywords.length
      let match_pct : ℚ :=
        if total_keywords = 0 then 0
        else (parts.1.length : ℚ) / (total_keywords : ℚ)
      some
        { matched_keywords := parts.1
          unmatched_keywords := parts.2
          total_keywords := total_keywords
          match_pct := clamp01 match_pct
          mandatory_matched :=
            if mandatory_keywords = [] then true
            else decide (mparts.1.length = mandatory_keywords.length)
          mandatory_matched_keywords := mparts.1
          mandatory_unmatched_keywords := mparts.2
          mandatory_count := mandatory_keywords.length
          mandatory_matched_count := mparts.1.length }

/-! ### Ranking (`rank_students`) -/

/-- `safe_float(x, 0.0)`: the always-defined variant used by the ranker. -/
def safeFloatD (v : Value) : ℚ := (safe_float v (some 0)).getD 0

/-- The order realized by Python's stable `sorted(..., key=key,
reverse=True)` on index-value pairs: strictly larger key first, ties by
original position. -/
def rankLE {α : Type} (key : α → ℚ) (x y : ℕ × α) : Prop :=
  key y.2 < key x.2 ∨ (key x.2 = key y.2 ∧ x.1 ≤ y.1)

instance {α : Type} (key : α → ℚ) : DecidableRel (rankLE key) := fun x y => by
  unfold rankLE; exact inferInstance

instance {α : Type} (key : α → ℚ) : IsTotal (ℕ × α) (rankLE key) where
  total x y := by
    rcases lt_trichotomy (key x.2) (key y.2) with h | h | h
    · right; left; exact h
    · rcases Nat.le_total x.1 y.1 with hn | hn
      · left; right; exact ⟨h, hn⟩
      · right; right; exact ⟨h.symm, hn⟩
    · left; left; exact h

instance {α : Type} (key : α → ℚ) : IsTrans (ℕ × α) (rankLE key) where
  trans x y z hxy hyz := by
    rcases hxy with h1 | ⟨e1, n1⟩ <;> rcases hyz with h2 | ⟨e2, n2⟩
    · left; exact h2.trans h1
    · left; rw [← e2]; exact h1
    · left; rw [e1]; exact h2
    · right; exact ⟨e1.trans e2, n1.trans n2⟩

/-- Python `enumerate(l, n)`. -/
def pyEnumFrom {α : Type} (n : ℕ) : List α → List (ℕ × α)
  | [] => []
  | a :: l => (n, a) :: pyEnumFrom (n + 1) l

/-- The index-tagged stable descending sort underlying Python's
`sorted(..., key=key, reverse=True)`. -/
def stableSortIdx {α : Type} (key : α → ℚ) (l : List α) : List (ℕ × α) :=
  List.insertionSort (rankLE key) (pyEnumFrom 0 l)

/-- Python `sorted(l, key=key, reverse=True)`: stable descending sort. -/
def pySortedDesc {α : Type} (key : α → ℚ) (l : List α) : List α :=
  (stableSortIdx key l).map Prod.snd

/-- A qualified-candidate record as `process_job_profile` builds it and
`rank_students` consumes it. -/
structure Candidate where
  student_id : Value
  keyword_match_pct : Value
  general_score : Value
  matched_keywords : List String
  unmatched_keywords : List String
deriving DecidableEq

/-- One ranking-view entry (Python names the rank key `general_rank` in the
first view and `job_rank` in the second; the value is the same 1-based
position, modelled by the single field `rank`). -/
structure RankingEntry where
  student_id : ℤ
  keyword_match_pct : ℚ
  general_score : ℚ
  rank : ℕ
  matched_keywords : List String
  unmatched_keywords : List String
deriving DecidableEq

/-- The two ranking views returned by `rank_students`. -/
structure RankOutput where
  general_ranking : List RankingEntry
  job_specific_ranking : List RankingEntry
deriving DecidableEq

/-- The ranker's sort key on `general_score`. -/
def gKey (s : Candidate) : ℚ := safeFloatD s.general_score

/-- The ranker's sort key on `keyword_match_pct`. -/
def jKey (s : Candidate) : ℚ := safeFloatD s.keyword_match_pct

/-- One entry-building loop of `rank_students`: enumerate the sorted list
from 1, skip records whose `student_id` fails `safe_int`. -/
def buildRanking (ranked : List Candidate) : List RankingEntry :=
  (pyEnumFrom 1 ranked).filterMap fun p =>
    (safe_int p.2.student_id).map fun sid =>
      { student_id := sid
        keyword_match_pct := safeFloatD p.2.keyword_match_pct
        general_score := safeFloatD p.2.general_score
        rank := p.1
        matched_keywords := p.2.matched_keywords
        unmatched_keywords := p.2.unmatched_keywords }

/-- `rank_students`: rank by `general_score` and by `keyword_match_pct`.
The Python function first overwrites each record's `general_score` and
`keyword_match_pct` fields in place with their parsed float values; this
mutation is made explicit in the second component of the result (the
post-call state of the input records). -/
def rank_students (qualified_students : List Candidate) :
    RankOutput × List Candidate :=
  if qualified_students = [] then
    ({ general_ranking := [], job_specific_ranking := [] },
      qualified_students)
  else
    let mutated := qualified_students.map fun s =>
      { s with
          general_score := Value.vnum (safeFloatD s.general_score)
          keyword_match_pct := Value.vnum (safeFloatD s.keyword_match_pct) }
    ({ general_ranking := buildRanking (pySortedDesc gKey mutated)
       job_specific_ranking := buildRanking (pySortedDesc jKey mutated) },
      mutated)

/-! ### Helper lemmas -/

theorem clamp01_nonneg (x : ℚ) : 0 ≤ clamp01 x := le_max_left 0 _

theorem clamp01_le_one (x : ℚ) : clamp01 x ≤ 1 :=
  max_le (by norm_num) (min_le_left 1 x)

theorem clamp01_eq_self {x : ℚ} (h0 : 0 ≤ x) (h1 : x ≤ 1) : clamp01 x = x := by
  unfold clamp01
  rw [min_eq_right h1, max_eq_right h0]

/-- The penalty multiplier is `0.5 + 0.5 · min(AD, EAP, CCL)` in the
penalized branch. -/
theorem apply_min_dominance_penalty_eq (AD EAP CCL : ℚ) (ws : List String)
    (h : min AD (min EAP CCL) < 0.4) :
    (apply_min_dominance_penalty AD EAP CCL 0.3 0.5 ws).1 =
      0.5 + 0.5 * min AD (min EAP CCL) := by
  unfold apply_min_dominance_penalty
  rw [if_pos h]
  ring

/-- The penalty multiplier always lies in `[0.5, 1]` when the three
sub-scores are nonnegative. -/
theorem apply_min_dominance_penalty_bounds (AD EAP CCL : ℚ) (ws : List String)
    (hAD : 0 ≤ AD) (hEAP : 0 ≤ EAP) (hCCL : 0 ≤ CCL) :
    0.5 ≤ (apply_min_dominance_penalty AD EAP CCL 0.3 0.5 ws).1 ∧
      (apply_min_dominance_penalty AD EAP CCL 0.3 0.5 ws).1 ≤ 1 := by
  have hm : (0 : ℚ) ≤ min AD (min EAP CCL) := le_min hAD (le_min hEAP hCCL)
  by_cases h : min AD (min EAP CCL) < 0.4
  · rw [apply_min_dominance_penalty_eq AD EAP CCL ws h]
    constructor <;> nlinarith
  · unfold apply_min_dominance_penalty
    rw [if_neg h]
    norm_num

theorem calculate_AD_bounds (a b c d : Value) (ws : List String) :
    0 ≤ (calculate_AD a b c d ws).1 ∧ (calculate_AD a b c d ws).1 ≤ 1 := by
  unfold calculate_AD
  exact ⟨clamp01_nonneg _, clamp01_le_one _⟩

theorem calculate_EAP_bounds (a b c d : Value) (ws : List String) :
    0 ≤ (calculate_EAP a b c d ws).1 ∧ (calculate_EAP a b c d ws).1 ≤ 1 := by
  unfold calculate_EAP
  exact ⟨clamp01_nonneg _, clamp01_le_one _⟩

theorem calculate_CCL_bounds (a b c d : Value) (ws : List String) :
    0 ≤ (calculate_CCL a b c d ws).1 ∧ (calculate_CCL a b c d ws).1 ≤ 1 := by
  unfold calculate_CCL
  exact ⟨clamp01_nonneg _, clamp01_le_one _⟩

theorem calculate_LA_bounds (a b c d : Value) (ws : List String) :
    0 ≤ (calculate_LA a b c d ws).1 ∧ (calculate_LA a b c d ws).1 ≤ 1 := by
  unfold calculate_LA
  exact ⟨clamp01_nonneg _, clamp01_le_one _⟩

/-- The percentage clamp commutes with the unit clamp. -/
theorem clamp_percentage (f : ℚ) :
    max 0 (min 100 (f * 100)) = clamp01 f * 100 := by
  unfold clamp01
  rw [max_mul_of_nonneg _ _ (by norm_num : (0 : ℚ) ≤ 100),
    min_mul_of_nonneg _ _ (by norm_num : (0 : ℚ) ≤ 100)]
  norm_num

/-! ### Claim theorems -/

/-- C2: for sub-scores `AD, EAP, CCL ∈ [0,1]` with
`m = min(AD, EAP, CCL)`, the dominance-penalty multiplier is `1.0` when
`m ≥ 0.4` and `1 − (0.3 + 0.2·(0.4 − m)/0.4)` when `m < 0.4`; in particular
`m = 0.4` gives `1.0`, `m = 0.0` gives `0.5`, and `m = 0.35` gives
`0.675`. -/
theorem apply_min_dominance_penalty_spec (AD EAP CCL : ℚ) (ws : List String)
    (hAD : AD ∈ Set.Icc (0 : ℚ) 1) (hEAP : EAP ∈ Set.Icc (0 : ℚ) 1)
    (hCCL : CCL ∈ Set.Icc (0 : ℚ) 1) :
    (0.4 ≤ min AD (min EAP CCL) →
      (apply_min_dominance_penalty AD EAP CCL 0.3 0.5 ws).1 = 1) ∧
    (min AD (min EAP CCL) < 0.4 →
      (apply_min_dominance_penalty AD EAP CCL 0.3 0.5 ws).1 =
        1 - (0.3 + 0.2 * (0.4 - min AD (min EAP CCL)) / 0.4)) ∧
    (apply_min_dominance_penalty 0.4 1 1 0.3 0.5 []).1 = 1 ∧
    (apply_min_dominance_penalty 0 1 1 0.3 0.5 []).1 = 0.5 ∧
    (apply_min_dominance_penalty 0.35 0.9 0.9 0.3 0.5 []).1 = 0.675 := by
  refine ⟨fun h => ?_, fun h => ?_, ?_, ?_, ?_⟩
  · unfold apply_min_dominance_penalty
    rw [if_neg (not_lt.mpr h)]
  · rw [apply_min_dominance_penalty_eq AD EAP CCL ws h]
    ring
  · norm_num [apply_min_dominance_penalty]
  · norm_num [apply_min_dominance_penalty]
  · norm_num [apply_min_dominance_penalty]

/-- Witness for C2 at the concrete sub-scores of spec Scenario B. -/
theorem apply_min_dominance_penalty_spec_witness :
    (apply_min_dominance_penalty 0.35 0.9 0.9 0.3 0.5 []).1 =
      1 - (0.3 + 0.2 * (0.4 - min 0.35 (min 0.9 0.9)) / 0.4) :=
  (apply_min_dominance_penalty_spec 0.35 0.9 0.9 []
    (by constructor <;> norm_num) (by constructor <;> norm_num)
    (by constructor <;> norm_num)).2.1 (by norm_num)

/-- C10: `normalize_ai_score` is not monotonic across the scale-detection
threshold: every input in `(1, 10]` normalizes to exactly `1`, inputs just
above `10` (up to `100`) normalize to `value/100` (`10 ↦ 1` but
`11 ↦ 0.11`), so there are inputs `a < b` with
`normalize_ai_score a > normalize_ai_score b`. -/
theorem normalize_ai_score_nonmonotonic :
    (∀ x : ℚ, 1 < x → x ≤ 10 → normalize_ai_score x = 1) ∧
    normalize_ai_score 10 = 1 ∧
    normalize_ai_score 11 = 0.11 ∧
    (∀ x : ℚ, 10 < x → x ≤ 100 → normalize_ai_score x = x / 100) ∧
    (∃ a b : ℚ, a < b ∧ normalize_ai_score b < normalize_ai_score a) := by
  have hmid : ∀ x : ℚ, 1 < x → x ≤ 10 → normalize_ai_score x = 1 := by
    intro x h1 h10
    unfold normalize_ai_score norm_ratio clamp01
    rw [if_neg (not_lt.mpr h10), min_eq_left h1.le, max_eq_right zero_le_one]
  have hhigh : ∀ x : ℚ, 10 < x → x ≤ 100 → normalize_ai_score x = x / 100 := by
    intro x h10 h100
    unfold normalize_ai_score norm_percentile norm
    rw [if_pos h10, if_neg (by norm_num)]
    rw [show x - 0 = x by ring, show (100 : ℚ) - 0 = 100 by norm_num]
    exact clamp01_eq_self (by positivity)
      ((div_le_one (by norm_num)).mpr h100)
  refine ⟨hmid, hmid 10 (by norm_num) le_rfl, ?_, hhigh, 10, 11, by norm_num, ?_⟩
  · rw [hhigh 11 (by norm_num) (by norm_num)]
    norm_num
  · rw [hhigh 11 (by norm_num) (by norm_num),
      hmid 10 (by norm_num) le_rfl]
    norm_num

/-- C1: on every input signal set (including malformed, adversarial or
missing values) `calculate_HPPS` returns a `CompositeScore` and never
raises: the function is total and the fault path is never taken (`errors`
is always empty), and the fault handler of its `except` branch produces the
all-zero `CompositeScore` (`HPPS = 0`, all sub-scores `0`,
`penalty_multiplier = 1`) carrying an `errors` entry and the warnings
accumulated so far, rather than a partially-computed result. -/
theorem calculate_HPPS_total_and_fault_default :
    (∀ inp : HPPSInputs, (calculate_HPPS inp).errors = []) ∧
    (∀ msg ws,
      (hppsErrorResult msg ws).HPPS = 0 ∧
      (hppsErrorResult msg ws).HPPS_percentage = 0 ∧
      (hppsErrorResult msg ws).AD = 0 ∧
      (hppsErrorResult msg ws).EAP = 0 ∧
      (hppsErrorResult msg ws).CCL = 0 ∧
      (hppsErrorResult msg ws).LA = 0 ∧
      (hppsErrorResult msg ws).base_HPPS = 0 ∧
      (hppsErrorResult msg ws).penalty_multiplier = 1 ∧
      (hppsErrorResult msg ws).warnings = ws ∧
      (hppsErrorResult msg ws).errors ≠ []) :=
  ⟨fun _ => rfl,
   fun msg ws =>
    ⟨rfl, rfl, rfl, rfl, rfl, rfl, rfl, rfl, rfl, by simp [hppsErrorResult]⟩⟩

/-- C3: for every input to `calculate_HPPS` (valid or malformed), every
returned sub-score `AD, EAP, CCL, LA` as well as `base_HPPS` and `HPPS`
lies in `[0,1]`, `HPPS_percentage` lies in `[0,100]`, and
`penalty_multiplier` lies in `(0,1]`. -/
theorem calculate_HPPS_bounds (inp : HPPSInputs) :
    (calculate_HPPS inp).AD ∈ Set.Icc (0 : ℚ) 1 ∧
    (calculate_HPPS inp).EAP ∈ Set.Icc (0 : ℚ) 1 ∧
    (calculate_HPPS inp).CCL ∈ Set.Icc (0 : ℚ) 1 ∧
    (calculate_HPPS inp).LA ∈ Set.Icc (0 : ℚ) 1 ∧
    (calculate_HPPS inp).base_HPPS ∈ Set.Icc (0 : ℚ) 1 ∧
    (calculate_HPPS inp).HPPS ∈ Set.Icc (0 : ℚ) 1 ∧
    (calculate_HPPS inp).HPPS_percentage ∈ Set.Icc (0 : ℚ) 100 ∧
    0 < (calculate_HPPS inp).penalty_multiplier ∧
    (calculate_HPPS inp).penalty_multiplier ≤ 1 := by
  unfold calculate_HPPS
  dsimp only
  refine ⟨⟨clamp01_nonneg _, clamp01_le_one _⟩,
    ⟨clamp01_nonneg _, clamp01_le_one _⟩,
    ⟨clamp01_nonneg _, clamp01_le_one _⟩,
    ⟨clamp01_nonneg _, clamp01_le_one _⟩,
    ⟨clamp01_nonneg _, clamp01_le_one _⟩,
    ⟨clamp01_nonneg _, clamp01_le_one _⟩,
    ⟨le_max_left 0 _, max_le (by norm_num) (min_le_left 100 _)⟩,
    lt_of_lt_of_le (by norm_num : (0 : ℚ) < 0.5)
      (apply_min_dominance_penalty_bounds _ _ _ _
        (calculate_AD_bounds _ _ _ _ _).1 (calculate_EAP_bounds _ _ _ _ _).1
        (calculate_CCL_bounds _ _ _ _ _).1).1,
    (apply_min_dominance_penalty_bounds _ _ _ _
      (calculate_AD_bounds _ _ _ _ _).1 (calculate_EAP_bounds _ _ _ _ _).1
      (calculate_CCL_bounds _ _ _ _ _).1).2⟩

/-- C4: every `CompositeScore` built by `calculate_HPPS` — on the normal
path and on the error-path default — satisfies
`HPPS_percentage = HPPS * 100` and
`penalty_applied = (penalty_multiplier < 1)`. -/
theorem calculate_HPPS_consistency :
    (∀ inp : HPPSInputs,
      (calculate_HPPS inp).HPPS_percentage = (calculate_HPPS inp).HPPS * 100 ∧
      (calculate_HPPS inp).penalty_applied =
        decide ((calculate_HPPS inp).penalty_multiplier < 1)) ∧
    (∀ msg ws,
      (hppsErrorResult msg ws).HPPS_percentage =
        (hppsErrorResult msg ws).HPPS * 100 ∧
      (hppsErrorResult msg ws).penalty_applied =
        decide ((hppsErrorResult msg ws).penalty_multiplier < 1)) := by
  constructor
  · intro inp
    constructor
    · show max 0 (min 100 (_ * 100)) = clamp01 _ * 100
      exact clamp_percentage _
    · rfl
  · intro msg ws
    constructor
    · show (0 : ℚ) = 0 * 100
      norm_num
    · show false = decide ((1 : ℚ) < 1)
      norm_num

/-- Witness for C10 at concrete inputs on each side of the threshold. -/
theorem normalize_ai_score_nonmonotonic_witness :
    normalize_ai_score 5 = 1 ∧ normalize_ai_score 20 = 20 / 100 :=
  ⟨normalize_ai_score_nonmonotonic.1 5 (by norm_num) (by norm_num),
   normalize_ai_score_nonmonotonic.2.2.2.1 20 (by norm_num) (by norm_num)⟩

/-- C7 counterexample: the scoring pipeline (`pipeline.py` imports
`calculate_HPPS` from `function.py`) validates ratings with `function.py`'s
`validate_rating`, and that function does not clamp a negative numeric
rating to `0`: at input `-5` it returns `None` (treating the value as
missing), with a warning. -/
theorem validate_rating_negative_counterexample :
    (validate_rating (.vnum (-5)) "CF_rating" []).1 = none ∧
    (validate_rating (.vnum (-5)) "CF_rating" []).1 ≠ some 0 ∧
    (validate_rating (.vnum (-5)) "CF_rating" []).2 =
      ["CF_rating negative, treating as missing"] := by
  refine ⟨?_, ?_, ?_⟩ <;> norm_num [validate_rating, safe_float] <;> decide

/-- C7 amended: for the rating input kind as used by the scoring pipeline
(`validate_rating` in `function.py`): a negative numeric value is treated
as missing — it yields `None` with a warning (not clamped to `0`) — while
an unparseable or missing value yields `None` with no warning for plain
absence, and a nonnegative numeric value passes through unchanged with no
warning. -/
theorem validate_rating_spec (v : Value) (name : String) (ws : List String)
    (q : ℚ) :
    (safe_float v none = some q → q < 0 →
      validate_rating v name ws =
        (none, ws ++ [name ++ " negative, treating as missing"])) ∧
    (safe_float v none = some q → 0 ≤ q →
      validate_rating v name ws = (some q, ws)) ∧
    (safe_float v none = none → validate_rating v name ws = (none, ws)) := by
  refine ⟨fun hq hneg => ?_, fun hq hpos => ?_, fun h => ?_⟩
  · simp only [validate_rating, hq, if_pos hneg]
  · simp only [validate_rating, hq, if_neg (not_lt.mpr hpos)]
  · simp only [validate_rating, h]

/-- Witness for C7 at the concrete inputs `-3` (negative) and `None`. -/
theorem validate_rating_spec_witness :
    validate_rating (.vnum (-3)) "LC_rating" [] =
      (none, ["LC_rating negative, treating as missing"]) ∧
    validate_rating .vnone "CF_rating" [] = (none, []) := by
  constructor
  · have h := (validate_rating_spec (.vnum (-3)) "LC_rating" [] (-3)).1
      rfl (by norm_num)
    simpa using h
  · exact (validate_rating_spec .vnone "CF_rating" [] 0).2.2 rfl

/-- The Scenario C candidate: normalized tag set `{python, backend}`. -/
def scenarioC_student : Option Student :=
  some { student_id := .vnum 1, skills := .absent,
         tags := .plist ["python", "backend"], languages := .absent }

/-- C5 counterexample: for job keywords `[python, fastapi, backend]`,
mandatory `[python]` and the Scenario C candidate, `fastapi` also matches —
it is a `KEYWORD_MAP` key expanding to `{backend, python}`, which intersects
the candidate's set — so the matched list is not `[python, backend]` and the
unmatched list is not `[fastapi]` as the claim states. -/
theorem scenarioC_counterexample :
    (calculate_keyword_match scenarioC_student
        ["python", "fastapi", "backend"] ["python"]).map
      (fun r => (r.matched_keywords, r.unmatched_keywords)) =
      some (["python", "fastapi", "backend"], []) ∧
    (calculate_keyword_match scenarioC_student
        ["python", "fastapi", "backend"] ["python"]).map
      (fun r => r.matched_keywords) ≠ some ["python", "backend"] ∧
    (calculate_keyword_match scenarioC_student
        ["python", "fastapi", "backend"] ["python"]).map
      (fun r => r.unmatched_keywords) ≠ some ["fastapi"] :=
  ⟨by decide, by decide, by decide⟩

/-- C5 amended: with job keywords `[python, fastapi, backend]`, mandatory
`[python]` and a candidate whose normalized tag set is `{python, backend}`,
the match result has matched `[python, fastapi, backend]`, unmatched `[]`,
`match_pct = 1` and `mandatory_matched = true` (`fastapi` matches through
the expansion table); in general a job keyword counts as matched iff it is
directly present in the candidate's set or it is a key of the static
`KEYWORD_MAP` whose mapped categories intersect that set. -/
theorem scenarioC_amended :
    (calculate_keyword_match scenarioC_student
        ["python", "fastapi", "backend"] ["python"]).map
      (fun r => (r.matched_keywords, r.unmatched_keywords, r.match_pct,
        r.mandatory_matched)) =
      some (["python", "fastapi", "backend"], [], 1, true) ∧
    (∀ (kw : String) (aks : List String),
      _check_keyword_match kw aks = true ↔
        kw ∈ aks ∨ ∃ cats, KEYWORD_MAP.lookup kw = some cats ∧
          ∃ c ∈ cats, c ∈ aks) := by
  constructor
  · have h : (calculate_keyword_match scenarioC_student
        ["python", "fastapi", "backend"] ["python"]).map
        (fun r => (r.matched_keywords, r.unmatched_keywords, r.match_pct,
          r.mandatory_matched)) =
        some (["python", "fastapi", "backend"], [], clamp01 ((3 : ℚ) / 3),
          true) := rfl
    rw [h, show clamp01 ((3 : ℚ) / 3) = 1 from by norm_num [clamp01]]
  · intro kw aks
    unfold _check_keyword_match
    split_ifs with hmem
    · simp [hmem]
    · cases hl : KEYWORD_MAP.lookup kw with
      | none => simp [hmem]
      | some cats => simp [hmem, List.any_eq_true]

/-- The length of a keyword list is split between the matched and
unmatched parts. -/
theorem length_partition {α : Type} (p : α → Bool) (l : List α) :
    (l.partition p).1.length + (l.partition p).2.length = l.length := by
  rw [List.partition_eq_filter_filter]
  dsimp only
  induction l with
  | nil => rfl
  | cons a t ih =>
    by_cases hpa : p a = true <;> simp [List.filter_cons, hpa] <;> omega

/-- `clamp01` is the identity on a quotient of list lengths. -/
theorem clamp01_div_le {m n : ℕ} (hm : m ≤ n) (hn : n ≠ 0) :
    clamp01 ((m : ℚ) / (n : ℚ)) = (m : ℚ) / (n : ℚ) := by
  have hpos : (0 : ℚ) < (n : ℚ) := by
    exact_mod_cast Nat.pos_of_ne_zero hn
  exact clamp01_eq_self (by positivity)
    ((div_le_one hpos).mpr (by exact_mod_cast hm))

/-- C6 counterexample: with an empty keyword list,
`calculate_keyword_match` returns `None` (the empty list is falsy and hits
the early guard), not a match result with `match_pct = 0.0`. -/
theorem empty_keywords_counterexample :
    calculate_keyword_match scenarioC_student [] ["python"] = none := by
  decide

/-- C6 amended: for every candidate profile (truthy dict) and every
non-empty job keyword list, `calculate_keyword_match` produces a match
result with `match_pct = len(matched)/len(keywords)` (and matched/unmatched
partitioning the keywords); with an empty keyword list it returns `None`
instead of a match result with `match_pct = 0.0`. -/
theorem calculate_keyword_match_pct_spec (st : Student)
    (keywords mandatory_keywords : List String) (h : keywords ≠ []) :
    (∃ r, calculate_keyword_match (some st) keywords mandatory_keywords =
        some r ∧
      r.match_pct = (r.matched_keywords.length : ℚ) / (keywords.length : ℚ) ∧
      r.matched_keywords.length + r.unmatched_keywords.length =
        keywords.length) ∧
    (∀ (s : Option Student) (m : List String),
      calculate_keyword_match s [] m = none) := by
  constructor
  · unfold calculate_keyword_match
    dsimp only
    rw [if_neg h]
    have hn : keywords.length ≠ 0 := fun hc => h (List.length_eq_zero.mp hc)
    refine ⟨_, rfl, ?_, length_partition _ keywords⟩
    dsimp only
    rw [if_neg hn]
    exact clamp01_div_le (Nat.le.intro (length_partition _ keywords)) hn
  · intro s m
    cases s with
    | none => rfl
    | some st' => simp [calculate_keyword_match]

/-- Witness for C6 at a concrete candidate and the keyword list
`[python, sql]`, of which exactly one matches. -/
theorem calculate_keyword_match_pct_spec_witness :
    (∃ r, calculate_keyword_match
        (some { student_id := .vnum 2, skills := .plist ["python"],
                tags := .absent, languages := .absent })
        ["python", "sql"] [] = some r ∧
      r.match_pct = (r.matched_keywords.length : ℚ) /
        ((["python", "sql"] : List String).length : ℚ) ∧
      r.matched_keywords.length + r.unmatched_keywords.length =
        (["python", "sql"] : List String).length) ∧
    (∀ (s : Option Student) (m : List String),
      calculate_keyword_match s [] m = none) :=
  calculate_keyword_match_pct_spec
    { student_id := .vnum 2, skills := .plist ["python"],
      tags := .absent, languages := .absent }
    ["python", "sql"] [] (by decide)

/-! ### Ranking lemmas -/

theorem pyEnumFrom_map_snd {α : Type} (n : ℕ) (l : List α) :
    (pyEnumFrom n l).map Prod.snd = l := by
  induction l generalizing n with
  | nil => rfl
  | cons a t ih => simp [pyEnumFrom, ih]

theorem snd_mem_of_mem_pyEnumFrom {α : Type} {x : ℕ × α} {n : ℕ}
    {l : List α} (h : x ∈ pyEnumFrom n l) : x.2 ∈ l := by
  induction l generalizing n with
  | nil => cases h
  | cons a t ih =>
    rcases List.mem_cons.mp h with rfl | h'
    · exact List.mem_cons_self _ _
    · exact List.mem_cons_of_mem _ (ih h')

theorem pairwise_pyEnumFrom {α : Type} {R : α → α → Prop} :
    ∀ {l : List α} (n : ℕ), l.Pairwise R →
      (pyEnumFrom n l).Pairwise (fun x y => R x.2 y.2) := by
  intro l
  induction l with
  | nil => intro n _; exact List.Pairwise.nil
  | cons a t ih =>
    intro n h
    rw [List.pairwise_cons] at h
    exact List.Pairwise.cons
      (fun y hy => h.1 y.2 (snd_mem_of_mem_pyEnumFrom hy))
      (ih (n + 1) h.2)

theorem map_filterMap_pyEnumFrom {α β : Type} (f : ℕ × α → Option β)
    (g : β → ℕ) : ∀ (l : List α) (n : ℕ),
    (∀ p ∈ pyEnumFrom n l, (f p).isSome) →
    (∀ (p : ℕ × α) (x : β), f p = some x → g x = p.1) →
    ((pyEnumFrom n l).filterMap f).map g = List.range' n l.length 1 := by
  intro l
  induction l with
  | nil => intro n _ _; rfl
  | cons a t ih =>
    intro n hsome hg
    obtain ⟨x, hx⟩ := Option.isSome_iff_exists.mp
      (hsome (n, a) (List.mem_cons_self _ _))
    rw [show pyEnumFrom n (a :: t) = (n, a) :: pyEnumFrom (n + 1) t from rfl,
      List.filterMap_cons_some hx, List.map_cons, hg _ _ hx,
      List.length_cons, List.range'_succ]
    exact congrArg (n :: ·)
      (ih (n + 1) (fun p hp => hsome p (List.mem_cons_of_mem _ hp)) hg)

theorem pairwise_filterMap {α β : Type} {R : α → α → Prop}
    {S : β → β → Prop} (f : α → Option β)
    (himp : ∀ (a b : α) (x y : β), R a b → f a = some x → f b = some y →
      S x y) :
    ∀ {l : List α}, l.Pairwise R → (l.filterMap f).Pairwise S := by
  intro l
  induction l with
  | nil => intro _; simp
  | cons a t ih =>
    intro h
    rw [List.pairwise_cons] at h
    cases hfa : f a with
    | none => rw [List.filterMap_cons_none hfa]; exact ih h.2
    | some x =>
      rw [List.filterMap_cons_some hfa]
      refine List.Pairwise.cons (fun y hy => ?_) (ih h.2)
      obtain ⟨b, hb, hfb⟩ := List.mem_filterMap.mp hy
      exact himp a b x y (h.1 b hb) hfa hfb

/-- The index-tagged sort is sorted for its own order. -/
theorem stableSortIdx_sorted {α : Type} (key : α → ℚ) (xs : List α) :
    (stableSortIdx key xs).Pairwise (rankLE key) :=
  List.sorted_insertionSort (rankLE key) (pyEnumFrom 0 xs)

/-- Stability: elements with equal keys stay in original index order. -/
theorem stableSortIdx_stable {α : Type} (key : α → ℚ) (xs : List α) :
    (stableSortIdx key xs).Pairwise
      (fun x y => key x.2 = key y.2 → x.1 ≤ y.1) :=
  (stableSortIdx_sorted key xs).imp (fun h => by
    rcases h with hlt | ⟨_, hle⟩
    · exact fun heq => absurd hlt (by rw [heq]; exact lt_irrefl _)
    · exact fun _ => hle)

/-- The stable descending sort is a permutation of its input. -/
theorem pySortedDesc_perm {α : Type} (key : α → ℚ) (xs : List α) :
    (pySortedDesc key xs).Perm xs := by
  have h2 := (List.perm_insertionSort (rankLE key) (pyEnumFrom 0 xs)).map
    Prod.snd
  rwa [pyEnumFrom_map_snd] at h2

/-- The stable descending sort is descending in the key. -/
theorem pySortedDesc_sorted {α : Type} (key : α → ℚ) (xs : List α) :
    (pySortedDesc key xs).Pairwise (fun a b => key b ≤ key a) := by
  unfold pySortedDesc
  rw [List.pairwise_map]
  exact (stableSortIdx_sorted key xs).imp (fun h => by
    rcases h with hlt | ⟨heq, _⟩
    · exact le_of_lt hlt
    · exact heq.symm.le)

/-- C8: for every list of qualified candidates (records whose
`student_id` parses, as `process_job_profile` guarantees), `rank_students`
returns two views: `general_ranking` sorted descending by `general_score`
and `job_specific_ranking` sorted descending by `keyword_match_pct`;
entries receive consecutive 1-based rank numbers in sort order, and the
sort both views use is stable (equal sort keys keep the original relative
order) and permutes the input. -/
theorem rank_students_spec (l : List Candidate)
    (hid : ∀ c ∈ l, (safe_int c.student_id).isSome) :
    ((rank_students l).1.general_ranking.map RankingEntry.rank =
      List.range' 1 l.length 1) ∧
    ((rank_students l).1.job_specific_ranking.map RankingEntry.rank =
      List.range' 1 l.length 1) ∧
    (rank_students l).1.general_ranking.Pairwise
      (fun a b => b.general_score ≤ a.general_score) ∧
    (rank_students l).1.job_specific_ranking.Pairwise
      (fun a b => b.keyword_match_pct ≤ a.keyword_match_pct) ∧
    (∀ (key : Candidate → ℚ) (xs : List Candidate),
      (stableSortIdx key xs).Pairwise
        (fun x y => key x.2 = key y.2 → x.1 ≤ y.1) ∧
      (pySortedDesc key xs).Perm xs) := by
  refine ?_
  by_cases hnil : l = []
  · subst hnil
    exact ⟨rfl, rfl, List.Pairwise.nil, List.Pairwise.nil,
      fun key xs => ⟨stableSortIdx_stable key xs, pySortedDesc_perm key xs⟩⟩
  · unfold rank_students
    rw [if_neg hnil]
    dsimp only
    have hidmut : ∀ c ∈ l.map (fun s =>
        { s with
            general_score := Value.vnum (safeFloatD s.general_score)
            keyword_match_pct := Value.vnum (safeFloatD s.keyword_match_pct) }),
        (safe_int c.student_id).isSome := by
      intro c hc
      obtain ⟨c0, hc0, rfl⟩ := List.mem_map.mp hc
      exact hid c0 hc0
    have hrank : ∀ key : Candidate → ℚ,
        (buildRanking (pySortedDesc key (l.map (fun s =>
          { s with
              general_score := Value.vnum (safeFloatD s.general_score)
              keyword_match_pct :=
                Value.vnum (safeFloatD s.keyword_match_pct) })))).map
          RankingEntry.rank = List.range' 1 l.length 1 := by
      intro key
      unfold buildRanking
      rw [map_filterMap_pyEnumFrom _ RankingEntry.rank _ 1 ?hsome ?hg,
        (pySortedDesc_perm key _).length_eq, List.length_map]
      case hsome =>
        intro p hp
        obtain ⟨sid, hsid⟩ := Option.isSome_iff_exists.mp
          (hidmut p.2 ((pySortedDesc_perm key _).mem_iff.mp
            (snd_mem_of_mem_pyEnumFrom hp)))
        rw [hsid]
        rfl
      case hg =>
        intro p x hx
        obtain ⟨sid, _, rfl⟩ := Option.map_eq_some'.mp hx
        rfl
    have hpair : ∀ (key : Candidate → ℚ) (f : RankingEntry → ℚ),
        (∀ (p : ℕ × Candidate) (x : RankingEntry),
          ((safe_int p.2.student_id).map fun sid =>
            ({ student_id := sid
               keyword_match_pct := safeFloatD p.2.keyword_match_pct
               general_score := safeFloatD p.2.general_score
               rank := p.1
               matched_keywords := p.2.matched_keywords
               unmatched_keywords := p.2.unmatched_keywords } :
              RankingEntry)) = some x → f x = key p.2) →
        ∀ (xs : List Candidate),
          (buildRanking (pySortedDesc key xs)).Pairwise
            (fun a b => f b ≤ f a) := by
      intro key f hf xs
      unfold buildRanking
      refine pairwise_filterMap _ (fun a b x y hR hfa hfb => ?_)
        (pairwise_pyEnumFrom 1 (pySortedDesc_sorted key xs))
      rw [hf a x hfa, hf b y hfb]
      exact hR
    exact ⟨hrank gKey, hrank jKey,
      hpair gKey RankingEntry.general_score
        (fun p x hx => by
          obtain ⟨sid, _, rfl⟩ := Option.map_eq_some'.mp hx; rfl) _,
      hpair jKey RankingEntry.keyword_match_pct
        (fun p x hx => by
          obtain ⟨sid, _, rfl⟩ := Option.map_eq_some'.mp hx; rfl) _,
      fun key xs => ⟨stableSortIdx_stable key xs, pySortedDesc_perm key xs⟩⟩

/-- A concrete candidate pair (with a tie on `general_score`) for the C8
witness. -/
def rankWitnessA : Candidate :=
  { student_id := .vnum 1, keyword_match_pct := .vnum 1,
    general_score := .vnum 2, matched_keywords := [],
    unmatched_keywords := [] }

/-- Second candidate of the C8 witness pair. -/
def rankWitnessB : Candidate :=
  { student_id := .vnum 2, keyword_match_pct := .vnum 0,
    general_score := .vnum 2, matched_keywords := [],
    unmatched_keywords := [] }

/-- Witness for C8 at a concrete two-candidate list. -/
theorem rank_students_spec_witness :
    ((rank_students [rankWitnessA, rankWitnessB]).1.general_ranking.map
      RankingEntry.rank =
      List.range' 1 ([rankWitnessA, rankWitnessB] : List Candidate).length 1) ∧
    ((rank_students [rankWitnessA, rankWitnessB]).1.job_specific_ranking.map
      RankingEntry.rank =
      List.range' 1 ([rankWitnessA, rankWitnessB] : List Candidate).length 1) ∧
    (rank_students [rankWitnessA, rankWitnessB]).1.general_ranking.Pairwise
      (fun a b => b.general_score ≤ a.general_score) ∧
    (rank_students [rankWitnessA,
      rankWitnessB]).1.job_specific_ranking.Pairwise
      (fun a b => b.keyword_match_pct ≤ a.keyword_match_pct) ∧
    (∀ (key : Candidate → ℚ) (xs : List Candidate),
      (stableSortIdx key xs).Pairwise
        (fun x y => key x.2 = key y.2 → x.1 ≤ y.1) ∧
      (pySortedDesc key xs).Perm xs) :=
  rank_students_spec [rankWitnessA, rankWitnessB] (by decide)

/-- The candidate of the C9 counterexample: `general_score` and
`keyword_match_pct` are absent (`None`). -/
def mutationCand : Candidate :=
  { student_id := .vnum 7, keyword_match_pct := .vnone,
    general_score := .vnone, matched_keywords := [],
    unmatched_keywords := [] }

/-- C9 counterexample: `rank_students` is not free of effects on its input
records — it overwrites each record's `general_score` and
`keyword_match_pct` with their parsed float values (here `0.0` for the
absent values), so the records do not hold the same values after the
call. -/
theorem rank_students_mutates_counterexample :
    (rank_students [mutationCand]).2 =
      [{ student_id := .vnum 7, keyword_match_pct := .vnum 0,
         general_score := .vnum 0, matched_keywords := [],
         unmatched_keywords := [] }] ∧
    (rank_students [mutationCand]).2 ≠ [mutationCand] :=
  ⟨by decide, by decide⟩

/-- C9 amended: `rank_students` mutates exactly the `general_score` and
`keyword_match_pct` fields of its input records, overwriting them with
their parsed float values (`0.0` when missing or unparseable); every other
field (`student_id`, `matched_keywords`, `unmatched_keywords`) is
unchanged. -/
theorem rank_students_mutation_frame (l : List Candidate) :
    (rank_students l).2 = l.map (fun s =>
      { s with
          general_score := Value.vnum (safeFloatD s.general_score)
          keyword_match_pct := Value.vnum (safeFloatD s.keyword_match_pct) }) ∧
    (rank_students l).2.map Candidate.student_id =
      l.map Candidate.student_id ∧
    (rank_students l).2.map Candidate.matched_keywords =
      l.map Candidate.matched_keywords ∧
    (rank_students l).2.map Candidate.unmatched_keywords =
      l.map Candidate.unmatched_keywords := by
  by_cases hnil : l = []
  · subst hnil
    exact ⟨rfl, rfl, rfl, rfl⟩
  · unfold rank_students
    rw [if_neg hnil]
    dsimp only
    refine ⟨rfl, ?_, ?_, ?_⟩ <;> rw [List.map_map] <;> rfl

end Gdcoe
